import Mathlib

/-
Verification development for the muahua-vang portfolio repository.

The definitions below are a shallow embedding of the repository's
TypeScript code:
  - the input sanitizer and validators of src/utils/validation.ts,
  - the per-field validation, form state and submit handler of
    src/components/Contact.tsx,
  - the HTTP request/retry/error-classification layer of src/utils/api.ts,
  - the theme controller of the App component (storage initialization,
    theme-apply effect, system color-scheme listener).

JavaScript strings are modelled as Lean String/List Char; the few regular
expressions used by the code are embedded as executable character-list
scanners whose semantics follows the concrete pattern noted at each
definition. Fallible storage and network operations are passed in as
Except-valued arguments, so a thrown exception is an explicit error value.
-/

/-! ## JavaScript string primitives -/

/-- Whitespace as matched by the JavaScript trim and regex whitespace class
(ASCII whitespace plus NBSP, BOM and the line/paragraph separators; the
inputs appearing in this development are ASCII). -/
def isJsWhitespace (c : Char) : Bool :=
  c == ' ' || c == '\t' || c == '\n' || c == '\r' ||
  c == Char.ofNat 11 || c == Char.ofNat 12 || c == Char.ofNat 160 ||
  c == Char.ofNat 8232 || c == Char.ofNat 8233 || c == Char.ofNat 65279

/-- Leading and trailing whitespace removed, as String.prototype.trim does. -/
def jsTrimList (l : List Char) : List Char :=
  ((l.dropWhile isJsWhitespace).reverse.dropWhile isJsWhitespace).reverse

/-- String-level wrapper of jsTrimList. -/
def jsTrim (s : String) : String :=
  String.mk (jsTrimList s.data)

/-- Embedding of the global regex replace of the character class with angle
brackets by the empty string in sanitizeInput (validation.ts line 233):
every occurrence of either bracket character is deleted. -/
def removeAngleBrackets (l : List Char) : List Char :=
  l.filter (fun c => !(c == '<') && !(c == '>'))

/-- The eleven characters of the lowercase javascript protocol literal. -/
def jsProtocolChars : List Char := "javascript:".data

/-- Case-insensitive test that the list starts with the javascript protocol
literal (the i flag of the regex at validation.ts line 234). -/
def matchesJsProtocolAt (l : List Char) : Bool :=
  ((l.take 11).map Char.toLower) == jsProtocolChars

/-- Left-to-right, non-overlapping deletion of every case-insensitive
occurrence of the javascript protocol literal (validation.ts line 234).
The first argument counts characters still to be skipped after a match. -/
def removeJsProtocolAux : Nat → List Char → List Char
  | _ + 1, [] => []
  | skip + 1, _ :: cs => removeJsProtocolAux skip cs
  | 0, [] => []
  | 0, c :: cs =>
    if matchesJsProtocolAt (c :: cs) then removeJsProtocolAux 10 cs
    else c :: removeJsProtocolAux 0 cs

/-- Entry point of the javascript protocol removal pass. -/
def removeJsProtocol (l : List Char) : List Char :=
  removeJsProtocolAux 0 l

/-- Word characters of the regex word class: ASCII letters, digits and the
underscore. -/
def isWordChar (c : Char) : Bool :=
  c.isAlphanum || c == '_'

/-- Length of the inline event-handler attribute match at the head of the
list, if any (the pattern at validation.ts line 235: the letters o and n,
case-insensitively, one or more word characters, then an equals sign).
Since the equals sign is not a word character, the greedy word-character run
is forced to be maximal, so a match at this position exists exactly when the
maximal run is nonempty and is followed by an equals sign. -/
def onHandlerMatchLen (l : List Char) : Option Nat :=
  match l with
  | a :: b :: rest =>
    if a.toLower == 'o' && b.toLower == 'n' then
      let run := rest.takeWhile isWordChar
      if 0 < run.length && ((rest.drop run.length).head? == some '=') then
        some (run.length + 3)
      else none
    else none
  | _ => none

/-- Left-to-right, non-overlapping deletion of every inline event-handler
attribute pattern (validation.ts line 235). The first argument counts
characters still to be skipped after a match. -/
def removeOnHandlersAux : Nat → List Char → List Char
  | _ + 1, [] => []
  | skip + 1, _ :: cs => removeOnHandlersAux skip cs
  | 0, [] => []
  | 0, c :: cs =>
    match onHandlerMatchLen (c :: cs) with
    | some len => removeOnHandlersAux (len - 1) cs
    | none => c :: removeOnHandlersAux 0 cs

/-- Entry point of the event-handler removal pass. -/
def removeOnHandlers (l : List Char) : List Char :=
  removeOnHandlersAux 0 l

/-- Embedding of sanitizeInput (validation.ts lines 230-236): trim, then
delete angle brackets, then javascript protocol occurrences, then inline
event-handler attribute patterns, in that order. -/
def sanitizeInput (s : String) : String :=
  String.mk (removeOnHandlers (removeJsProtocol (removeAngleBrackets (jsTrimList s.data))))

/-- Characters allowed on either side of the at sign by the email pattern of
Contact.tsx line 188: anything that is not whitespace and not an at sign. -/
def isEmailSafeChar (c : Char) : Bool :=
  !(isJsWhitespace c) && !(c == '@')

/-- Embedding of the email regex of Contact.tsx line 188 (one or more
non-space non-at characters, an at sign, one or more, a dot, one or more).
Since the character class excludes the at sign, the string must split at its
first at sign, and with backtracking the part after it matches exactly when
it contains a dot that is neither its first nor its last character. -/
def emailRegexTest (l : List Char) : Bool :=
  let beforeAt := l.takeWhile (fun c => !(c == '@'))
  match l.dropWhile (fun c => !(c == '@')) with
  | [] => false
  | _ :: rest =>
    !(beforeAt.isEmpty) && beforeAt.all isEmailSafeChar &&
    !(rest.isEmpty) && rest.all isEmailSafeChar &&
    ((rest.drop 1).dropLast.contains '.')

/-- The apostrophe character, written by code point. -/
def apostropheChar : Char := Char.ofNat 39

/-- Characters of the name character class of VALIDATION_REGEX.NAME
(validation.ts line 23): ASCII letters, whitespace, hyphen, apostrophe. -/
def isNameClassChar (c : Char) : Bool :=
  c.isAlpha || isJsWhitespace c || c == '-' || c == apostropheChar

/-- Embedding of the anchored name regex of validation.ts line 23: between 2
and 50 characters, all from the name character class. -/
def nameRegexTest (l : List Char) : Bool :=
  decide (2 ≤ l.length) && decide (l.length ≤ 50) && l.all isNameClassChar

/-- Embedding of isValidName (validation.ts lines 91-93): the name regex
applied to the trimmed value. -/
def isValidName (s : String) : Bool :=
  nameRegexTest (jsTrimList s.data)

/-! ## Contact form fields and validation (Contact.tsx) -/

/-- The four fields of the contact form state. -/
inductive FieldName where
  | name
  | email
  | subject
  | message
deriving DecidableEq

/-- Per-field configuration as in FormFieldConfig (the fields relevant to
validation). -/
structure FormFieldConfig where
  required : Bool
  minLength : Option Nat
  maxLength : Option Nat
deriving DecidableEq

/-- Embedding of the FORM_FIELDS configuration record of Contact.tsx lines
90-121. -/
def FORM_FIELDS : FieldName → FormFieldConfig
  | FieldName.name => { required := true, minLength := some 2, maxLength := some 50 }
  | FieldName.email => { required := true, minLength := none, maxLength := none }
  | FieldName.subject => { required := false, minLength := some 2, maxLength := some 100 }
  | FieldName.message => { required := true, minLength := some 10, maxLength := some 1000 }

/-- The minimum-length check of validateField (Contact.tsx lines 177-179).
The JavaScript condition tests the configured bound for truthiness first, so
a zero bound would be skipped; the trimmed value's length is compared. -/
def validateFieldMinError (mo : Option Nat) (t : List Char) : Option String :=
  match mo with
  | some m =>
    if 0 < m ∧ t.length < m then some ("Must be at least " ++ toString m ++ " characters")
    else none
  | none => none

/-- The maximum-length check of validateField (Contact.tsx lines 182-184). -/
def validateFieldMaxError (mo : Option Nat) (t : List Char) : Option String :=
  match mo with
  | some m =>
    if 0 < m ∧ m < t.length then some ("Must be no more than " ++ toString m ++ " characters")
    else none
  | none => none

/-- Embedding of validateField of Contact.tsx lines 168-195: required check
on the trimmed value, then minimum length, then maximum length, then the
email format check for the email field; the empty string means no error. -/
def validateField (f : FieldName) (value : String) : String :=
  let field := FORM_FIELDS f
  let t := jsTrimList value.data
  if field.required && t.isEmpty then "This field is required"
  else
    match validateFieldMinError field.minLength t with
    | some e => e
    | none =>
      match validateFieldMaxError field.maxLength t with
      | some e => e
      | none =>
        if f = FieldName.email ∧ t.isEmpty = false then
          if emailRegexTest t then "" else "Please enter a valid email address"
        else ""

/-- Per-field state of the contact form (Contact.tsx FieldState). -/
structure FieldState where
  value : String
  error : String
  touched : Bool
deriving DecidableEq

/-- Whole-form state (Contact.tsx FormState). -/
structure FormState where
  name : FieldState
  email : FieldState
  subject : FieldState
  message : FieldState
deriving DecidableEq

/-- A freshly created or reset field. -/
def emptyFieldState : FieldState :=
  { value := "", error := "", touched := false }

/-- The reset form state used on mount, reset and successful submission
(Contact.tsx lines 139-144 and 304-309). -/
def emptyFormState : FormState :=
  { name := emptyFieldState, email := emptyFieldState
  , subject := emptyFieldState, message := emptyFieldState }

/-- One step of validateForm (Contact.tsx lines 206-217): validate a field
and update its error and touched flags; the Bool is whether it was valid. -/
def validateFormField (f : FieldName) (st : FieldState) : FieldState × Bool :=
  let e := validateField f st.value
  if e = "" then ({ st with error := "" }, true)
  else ({ st with error := e, touched := true }, false)

/-- Embedding of validateForm of Contact.tsx lines 201-221: every field is
validated in declaration order and the updated form state is returned with
the overall validity flag. -/
def validateForm (fs : FormState) : Bool × FormState :=
  let n := validateFormField FieldName.name fs.name
  let e := validateFormField FieldName.email fs.email
  let s := validateFormField FieldName.subject fs.subject
  let m := validateFormField FieldName.message fs.message
  (n.2 && e.2 && s.2 && m.2,
   { name := n.1, email := e.1, subject := s.1, message := m.1 })

/-- Embedding of handleInputChange of Contact.tsx lines 232-245: the stored
value is the sanitized raw value, the error is cleared and the field is
marked touched; the previous field state is otherwise discarded. -/
def handleInputChange (_st : FieldState) (v : String) : FieldState :=
  { value := sanitizeInput v, error := "", touched := true }

/-- The submitted payload (ContactFormData), built at Contact.tsx lines
282-287: each value trimmed, and the subject replaced by undefined when the
trimmed subject is empty. -/
structure ContactFormData where
  name : String
  email : String
  message : String
  subject : Option String
deriving DecidableEq

/-- Embedding of the payload construction in handleSubmit. -/
def buildFormData (fs : FormState) : ContactFormData :=
  { name := jsTrim fs.name.value
  , email := jsTrim fs.email.value
  , message := jsTrim fs.message.value
  , subject := if jsTrim fs.subject.value = "" then none else some (jsTrim fs.subject.value) }

/-- The submission banner state (Contact.tsx submitResult). -/
structure SubmitResult where
  success : Bool
  message : String
deriving DecidableEq

/-- Outcome of the awaited submission function: it resolves, or rejects with
an Error carrying a message (none models a non-Error thrown value). -/
inductive SubmitOutcome where
  | resolves
  | rejects (msg : Option String)

/-- The component state touched by handleSubmit. -/
structure ContactComponentState where
  formState : FormState
  submitResult : Option SubmitResult
  isSubmitted : Bool
  isSubmitting : Bool
deriving DecidableEq

/-- Embedding of handleSubmit of Contact.tsx lines 269-321: whole-form
validation gates the submission; on a resolved submission the form is reset
and a success result recorded; on a rejection the form state is left as
validateForm wrote it and a failure result recorded. -/
def handleSubmit (s : ContactComponentState) (outcome : SubmitOutcome) : ContactComponentState :=
  let v := validateForm s.formState
  if v.1 = false then { s with formState := v.2 }
  else
    match outcome with
    | SubmitOutcome.resolves =>
      { formState := emptyFormState
      , submitResult := some { success := true
                             , message := "Thank you for your message! I will get back to you soon." }
      , isSubmitted := true
      , isSubmitting := false }
    | SubmitOutcome.rejects msg =>
      { s with
        formState := v.2
      , submitResult := some { success := false
                             , message := msg.getD "Failed to send message. Please try again." }
      , isSubmitting := false }

/-- The auto-dismiss delay of the success banner (Contact.tsx line 348). -/
def SUCCESS_MESSAGE_DISMISS_MS : Nat := 5000

/-- Embedding of the auto-dismiss effect of Contact.tsx lines 344-352: a
timer is armed exactly when the recorded result is a success. -/
def successDismissTimer (r : Option SubmitResult) : Option Nat :=
  match r with
  | some res => if res.success then some SUCCESS_MESSAGE_DISMISS_MS else none
  | none => none

/-- The fully valid end-to-end scenario input of the specification, as form
state: subject left empty, the other three fields filled. -/
def c1ScenarioFormState : FormState :=
  { name := { value := "Jane Doe", error := "", touched := true }
  , email := { value := "jane@example.com", error := "", touched := true }
  , subject := { value := "", error := "", touched := false }
  , message := { value := "Hello, this is a long enough message.", error := "", touched := true } }

/-- A component state whose form passes whole-form validation (subject
filled, since the gate rejects an empty subject). -/
def c9WitnessState : ContactComponentState :=
  { formState :=
      { name := { value := "Jane Doe", error := "", touched := true }
      , email := { value := "jane@example.com", error := "", touched := true }
      , subject := { value := "Hi there", error := "", touched := true }
      , message := { value := "Hello, this is a long enough message.", error := "", touched := true } }
  , submitResult := none
  , isSubmitted := false
  , isSubmitting := false }

/-- Characters other than the two angle brackets. -/
def noAngle (c : Char) : Bool :=
  !(c == '<') && !(c == '>')

/-! ## HTTP layer (api.ts) -/

/-- Maximum retry attempts of API_CONFIG (api.ts line 21). -/
def API_MAX_RETRIES : Nat := 3

/-- Base retry delay in milliseconds of API_CONFIG (api.ts line 23). -/
def API_RETRY_DELAY : Nat := 1000

/-- Request timeout in milliseconds of API_CONFIG (api.ts line 19). -/
def API_TIMEOUT_MS : Nat := 10000

/-- The values thrown by the API layer: the ApiError, NetworkError and
ValidationError classes of api.ts, the AbortError DOMException raised by the
timeout, the TypeError raised by a failed fetch, and any other thrown
value. -/
inductive JsError where
  | apiError (message : String) (status : Nat) (statusText : String)
  | networkError (message : String)
  | validationFailure (message : String) (errors : List (String × List String))
  | abortDomError
  | fetchTypeError
  | otherThrown
deriving DecidableEq

/-- The instanceof ApiError test. -/
def JsError.isApiError : JsError → Bool
  | JsError.apiError _ _ _ => true
  | _ => false

/-- The status field read by the retry condition (zero for non-ApiError
values, on which the retry condition is never reached). -/
def JsError.statusOrZero : JsError → Nat
  | JsError.apiError _ st _ => st
  | _ => 0

/-- The instanceof ValidationError test. -/
def JsError.isValidationFailure : JsError → Bool
  | JsError.validationFailure _ _ => true
  | _ => false

/-- The instanceof NetworkError test. -/
def JsError.isNetworkError : JsError → Bool
  | JsError.networkError _ => true
  | _ => false

/-- Behavior of one fetch attempt, as observed by makeRequest: a parsed ok
response, a non-2xx response with its status, optional parsed body message
and status text, an abort fired by the timeout, a connection-level
TypeError, or some other thrown value. -/
inductive AttemptResult where
  | okJson
  | httpError (status : Nat) (bodyMessage : Option String) (statusText : String)
  | abortTimeout
  | fetchFailure
  | otherFailure

/-- The try block of makeRequest (api.ts lines 100-125): a non-ok response
is turned into an ApiError whose message is the parsed body message,
defaulting to the generic HTTP status string (line 118). -/
def fetchTryResult (a : AttemptResult) : Except JsError Unit :=
  match a with
  | AttemptResult.okJson => Except.ok ()
  | AttemptResult.httpError st body stText =>
    Except.error (JsError.apiError (body.getD ("HTTP " ++ toString st ++ ": " ++ stText)) st stText)
  | AttemptResult.abortTimeout => Except.error JsError.abortDomError
  | AttemptResult.fetchFailure => Except.error JsError.fetchTypeError
  | AttemptResult.otherFailure => Except.error JsError.otherThrown

/-- Embedding of makeRequest (api.ts lines 95-152). The result is the number
of fetch attempts performed, the backoff delays awaited, and the outcome.
The catch block is translated clause by clause in source order: abort to a
NetworkError, fetch TypeError to a NetworkError, rethrow of ApiError (lines
138-140), then the retry branch for 5xx ApiError values (lines 143-147),
then rethrow. The last argument is recursion fuel, sufficient because the
retry branch requires the retry count to be below API_MAX_RETRIES. -/
def makeRequestGo (behavior : Nat → AttemptResult) : Nat → Nat → Nat × List Nat × Except JsError Unit
  | _, 0 => (0, [], Except.error JsError.otherThrown)
  | retryCount, fuel + 1 =>
    match fetchTryResult (behavior retryCount) with
    | Except.ok u => (1, [], Except.ok u)
    | Except.error e =>
      if e = JsError.abortDomError then
        (1, [], Except.error (JsError.networkError "Request timeout"))
      else if e = JsError.fetchTypeError then
        (1, [], Except.error (JsError.networkError "Network connection failed"))
      else if e.isApiError = true then
        (1, [], Except.error e)
      else if retryCount < API_MAX_RETRIES ∧ e.isApiError = true ∧ 500 ≤ e.statusOrZero then
        let r := makeRequestGo behavior (retryCount + 1) fuel
        (r.1 + 1, API_RETRY_DELAY * (retryCount + 1) :: r.2.1, r.2.2)
      else
        (1, [], Except.error e)

/-- Entry point of makeRequest with the default retry count of zero and the
fuel the bounded retry count admits. -/
def makeRequest (behavior : Nat → AttemptResult) (retryCount : Nat) : Nat × List Nat × Except JsError Unit :=
  makeRequestGo behavior retryCount (API_MAX_RETRIES + 1 - retryCount)

/-- The response shape of the contact endpoint (ApiResponse). -/
structure ApiResponse where
  success : Bool
  message : String
  errors : Option (List (String × List String))
deriving DecidableEq

/-- Embedding of submitContactForm (api.ts lines 233-256), as a function of
the settled result of the underlying POST: a response with success false is
turned into a ValidationError carrying the field error map; the catch block
rethrows ValidationError and converts every other failure into the generic
ApiError with message Failed to submit contact form and status 500. -/
def submitContactForm (postResult : Except JsError ApiResponse) : Except JsError ApiResponse :=
  let tryResult : Except JsError ApiResponse :=
    match postResult with
    | Except.ok r =>
      if r.success = false then
        Except.error (JsError.validationFailure r.message (r.errors.getD []))
      else Except.ok r
    | Except.error e => Except.error e
  match tryResult with
  | Except.ok r => Except.ok r
  | Except.error e =>
    if e.isValidationFailure = true then Except.error e
    else Except.error (JsError.apiError "Failed to submit contact form" 500 "Internal Server Error")

/-! ## Theme controller (the App component of the repository with storage
error handling, embedded at Competencies.tsx lines 112-380) -/

/-- The local storage key of the persisted theme. -/
def THEME_STORAGE_KEY : String := "portfolio-theme"

/-- JavaScript falsiness of the value read from storage: null or the empty
string. -/
def jsFalsyStr : Option String → Bool
  | none => true
  | some s => s == ""

/-- Component state written by the theme initialization effect. -/
structure ThemeInitResult where
  isDarkMode : Bool
  themeError : Option String
  isThemeLoading : Bool
deriving DecidableEq

/-- Embedding of initializeTheme (Competencies.tsx lines 203-233). The two
storage operations are passed as Except values; a thrown error reaches the
catch clause, which records the non-fatal error string and falls back to the
platform preference; the finally clause always clears the loading flag. -/
def initThemeEffect (getThemeRes : Except Unit (Option String)) (setLastVisitRes : Except Unit Unit)
    (prefersDark : Bool) (dark0 : Bool) : ThemeInitResult :=
  match getThemeRes with
  | Except.error _ =>
    { isDarkMode := prefersDark
    , themeError := some "Failed to load theme preferences"
    , isThemeLoading := false }
  | Except.ok saved =>
    let dark1 := if saved = some "dark" ∨ (jsFalsyStr saved = true ∧ prefersDark = true) then true else dark0
    match setLastVisitRes with
    | Except.error _ =>
      { isDarkMode := prefersDark
      , themeError := some "Failed to load theme preferences"
      , isThemeLoading := false }
    | Except.ok _ =>
      { isDarkMode := dark1, themeError := none, isThemeLoading := false }

/-- Embedding of the theme-apply effect (Competencies.tsx lines 239-259):
returns the new themeError and the value written to the theme slot, none
when nothing was written. It returns early while the theme is loading; a
throwing write is caught and recorded as a non-fatal error string. -/
def applyThemeEffect (isThemeLoading : Bool) (isDarkMode : Bool) (setThemeRes : Except Unit Unit)
    (themeError0 : Option String) : Option String × Option String :=
  if isThemeLoading then (themeError0, none)
  else
    match setThemeRes with
    | Except.ok _ => (themeError0, some (if isDarkMode then "dark" else "light"))
    | Except.error _ => (some "Failed to apply theme changes", none)

/-- Embedding of handleSystemThemeChange (Competencies.tsx lines 283-293):
the theme boolean is set to the event's matches flag only when no stored
theme value exists; a throwing read is caught and changes nothing. -/
def handleSystemThemeChange (getThemeRes : Except Unit (Option String)) (eventMatches : Bool)
    (dark0 : Bool) : Bool :=
  match getThemeRes with
  | Except.error _ => dark0
  | Except.ok saved => if jsFalsyStr saved then eventMatches else dark0

/-- Embedding of handleThemeToggle (Competencies.tsx lines 269-277): flips
the boolean and clears the recorded error. -/
def handleThemeToggle (dark0 : Bool) : Bool × Option String :=
  (!dark0, none)

/-- The media-query listeners the component manages. -/
inductive MediaQueryListener where
  | systemThemeChange
deriving DecidableEq

/-- The listener registration of the effect at Competencies.tsx lines
299-309. -/
def mountSystemThemeListener (ls : List MediaQueryListener) : List MediaQueryListener :=
  ls ++ [MediaQueryListener.systemThemeChange]

/-- The cleanup of the same effect, run only on unmount. -/
def unmountSystemThemeListener (ls : List MediaQueryListener) : List MediaQueryListener :=
  ls.erase MediaQueryListener.systemThemeChange

/-- Observable state of the theme controller across a run with reliable
storage: the component state plus the persisted theme slot. -/
structure ThemeAppState where
  isDarkMode : Bool
  isThemeLoading : Bool
  themeError : Option String
  storedTheme : Option String
deriving DecidableEq

/-- Mount of the theme controller with reliable storage: the initialization
effect runs, then the theme-apply effect runs on the resolved state (on the
first commit the loading flag is still set, so the apply effect first runs
after initialization completes). -/
def themeAppMount (stored0 : Option String) (prefersDark : Bool) : ThemeAppState :=
  let init := initThemeEffect (Except.ok stored0) (Except.ok ()) prefersDark false
  let applied := applyThemeEffect init.isThemeLoading init.isDarkMode (Except.ok ()) init.themeError
  { isDarkMode := init.isDarkMode
  , isThemeLoading := false
  , themeError := applied.1
  , storedTheme := match applied.2 with | some v => some v | none => stored0 }

/-- A user toggle: the boolean flips, the error clears, and the apply effect
re-runs. -/
def themeAppToggle (s : ThemeAppState) : ThemeAppState :=
  let t := handleThemeToggle s.isDarkMode
  let applied := applyThemeEffect s.isThemeLoading t.1 (Except.ok ()) t.2
  { isDarkMode := t.1
  , isThemeLoading := s.isThemeLoading
  , themeError := applied.1
  , storedTheme := match applied.2 with | some v => some v | none => s.storedTheme }

/-- A system preference-change notification: the handler runs against the
current stored value; when it does not change the boolean, no re-render
happens and the apply effect does not re-run. -/
def themeAppSystemChange (s : ThemeAppState) (eventMatches : Bool) : ThemeAppState :=
  let dark1 := handleSystemThemeChange (Except.ok s.storedTheme) eventMatches s.isDarkMode
  if dark1 = s.isDarkMode then s
  else
    let applied := applyThemeEffect s.isThemeLoading dark1 (Except.ok ()) s.themeError
    { isDarkMode := dark1
    , isThemeLoading := s.isThemeLoading
    , themeError := applied.1
    , storedTheme := match applied.2 with | some v => some v | none => s.storedTheme }

/-! ## Theorems -/

/-- Helper: every element of a filtered list satisfies the filter. -/
theorem filter_all_self (q : Char → Bool) (l : List Char) : (l.filter q).all q = true := by
  induction l with
  | nil => rfl
  | cons c cs ih =>
    by_cases h : q c = true
    · simp [List.filter, h, ih]
    · simp [List.filter, h, ih]

/-- Helper: the javascript-protocol removal pass only keeps characters of
its input, so it preserves any all-characters predicate. -/
theorem removeJsProtocolAux_all (p : Char → Bool) :
    ∀ (l : List Char) (n : Nat), l.all p = true → (removeJsProtocolAux n l).all p = true := by
  intro l
  induction l with
  | nil =>
    intro n _
    cases n <;> simp [removeJsProtocolAux]
  | cons c cs ih =>
    intro n h
    simp only [List.all_cons, Bool.and_eq_true] at h
    cases n with
    | succ k => simpa [removeJsProtocolAux] using ih k h.2
    | zero =>
      by_cases hm : matchesJsProtocolAt (c :: cs) = true
      · simp only [removeJsProtocolAux, hm, if_true]
        exact ih 10 h.2
      · simp only [removeJsProtocolAux, hm, if_false, Bool.false_eq_true, List.all_cons]
        simp [h.1, ih 0 h.2]

/-- Helper: the event-handler removal pass only keeps characters of its
input, so it preserves any all-characters predicate. -/
theorem removeOnHandlersAux_all (p : Char → Bool) :
    ∀ (l : List Char) (n : Nat), l.all p = true → (removeOnHandlersAux n l).all p = true := by
  intro l
  induction l with
  | nil =>
    intro n _
    cases n <;> simp [removeOnHandlersAux]
  | cons c cs ih =>
    intro n h
    simp only [List.all_cons, Bool.and_eq_true] at h
    cases n with
    | succ k => simpa [removeOnHandlersAux] using ih k h.2
    | zero =>
      cases hm : onHandlerMatchLen (c :: cs) with
      | some len =>
        simp only [removeOnHandlersAux, hm]
        exact ih (len - 1) h.2
      | none =>
        simp only [removeOnHandlersAux, hm, List.all_cons]
        simp [h.1, ih 0 h.2]

/-- C1. For the fully valid scenario input with the subject left empty, the
code's whole-form validation does NOT pass: validateField returns the
minimum-length error for the empty optional subject, while the three filled
fields validate cleanly, so validateForm reports the form invalid and
submission is blocked. This exhibits the slip: the minimum-length check of
Contact.tsx line 177 is not guarded by non-emptiness, contradicting the
optional subject configuration (required false, Contact.tsx line 109). -/
theorem empty_subject_rejected_by_gate :
    validateField FieldName.subject "" = "Must be at least 2 characters" ∧
    validateField FieldName.name "Jane Doe" = "" ∧
    validateField FieldName.email "jane@example.com" = "" ∧
    validateField FieldName.message "Hello, this is a long enough message." = "" ∧
    (validateForm c1ScenarioFormState).1 = false := by
  refine ⟨by decide, by decide, by decide, by decide, by decide⟩

/-- C2. The retry policy is dead code: a request whose every attempt fails
with HTTP 503 performs exactly one fetch attempt, awaits no backoff delay
and surfaces the ApiError at once, because the catch block rethrows every
ApiError (api.ts lines 138-140) before the retry branch (lines 143-147) can
test it; more generally every request performs exactly one attempt with no
delays, whatever the attempt outcomes. -/
theorem makeRequest_never_retries :
    makeRequest (fun _ => AttemptResult.httpError 503 none "Service Unavailable") 0 =
      (1, [], Except.error (JsError.apiError "HTTP 503: Service Unavailable" 503 "Service Unavailable")) ∧
    (∀ behavior : Nat → AttemptResult,
      (makeRequest behavior 0).1 = 1 ∧ (makeRequest behavior 0).2.1 = ([] : List Nat)) := by
  constructor
  · rfl
  · intro behavior
    unfold makeRequest makeRequestGo
    cases hb : behavior 0 <;>
      simp [hb, fetchTryResult, JsError.isApiError, JsError.statusOrZero, API_MAX_RETRIES]

/-- C3 counterexample. A timeout surfaced by the request layer as a
NetworkError does not reach the caller of submitContactForm as a network
error: the catch block of submitContactForm converts it into the generic
ApiError with message Failed to submit contact form. -/
theorem submit_timeout_surfaces_generic_apiError :
    submitContactForm (Except.error (JsError.networkError "Request timeout")) =
      Except.error (JsError.apiError "Failed to submit contact form" 500 "Internal Server Error") ∧
    JsError.isNetworkError (JsError.apiError "Failed to submit contact form" 500 "Internal Server Error") = false := by
  refine ⟨rfl, rfl⟩

/-- C3 amended. Within makeRequest, a timeout/abort is classified as the
transient NetworkError with message Request timeout and a non-2xx response
as an ApiError carrying the parsed body message, defaulting to the generic
HTTP status string; but submitContactForm re-wraps every non-ValidationError
failure into the generic ApiError with message Failed to submit contact
form, so only the validation kind survives it: a response with success false
surfaces as a ValidationError carrying the field-level error map. -/
theorem error_surfacing_amended :
    (makeRequest (fun _ => AttemptResult.abortTimeout) 0 =
      (1, [], Except.error (JsError.networkError "Request timeout"))) ∧
    (∀ st : Nat, ∀ stText : String,
      makeRequest (fun _ => AttemptResult.httpError st none stText) 0 =
        (1, [], Except.error (JsError.apiError ("HTTP " ++ toString st ++ ": " ++ stText) st stText))) ∧
    (∀ st : Nat, ∀ stText m : String,
      makeRequest (fun _ => AttemptResult.httpError st (some m) stText) 0 =
        (1, [], Except.error (JsError.apiError m st stText))) ∧
    (∀ e : JsError, e.isValidationFailure = false →
      submitContactForm (Except.error e) =
        Except.error (JsError.apiError "Failed to submit contact form" 500 "Internal Server Error")) ∧
    (∀ r : ApiResponse, r.success = false →
      submitContactForm (Except.ok r) =
        Except.error (JsError.validationFailure r.message (r.errors.getD []))) := by
  refine ⟨rfl, ?_, ?_, ?_, ?_⟩
  · intro st stText
    unfold makeRequest makeRequestGo
    simp [fetchTryResult, JsError.isApiError]
  · intro st stText m
    unfold makeRequest makeRequestGo
    simp [fetchTryResult, JsError.isApiError]
  · intro e he
    unfold submitContactForm
    simp [he]
  · intro r hr
    unfold submitContactForm
    simp [hr, JsError.isValidationFailure]

/-- C3 witness. The amended statement applied at concrete inputs: a thrown
NetworkError is genericized, and a success-false response with one field
error surfaces as a ValidationError carrying that map. -/
theorem error_surfacing_amended_witness :
    submitContactForm (Except.error (JsError.networkError "Network connection failed")) =
      Except.error (JsError.apiError "Failed to submit contact form" 500 "Internal Server Error") ∧
    submitContactForm (Except.ok { success := false, message := "Validation failed"
                                 , errors := some [("email", ["Invalid email"])] }) =
      Except.error (JsError.validationFailure "Validation failed" [("email", ["Invalid email"])]) :=
  ⟨error_surfacing_amended.2.2.2.1 (JsError.networkError "Network connection failed") (by decide),
   error_surfacing_amended.2.2.2.2 { success := false, message := "Validation failed"
                                   , errors := some [("email", ["Invalid email"])] } (by decide)⟩

/-- C4. The system color-scheme listener is registered by the mount effect
and removed by its unmount cleanup, and the handler updates the theme
boolean exactly when no stored theme value exists: with a stored preference
present the event leaves the boolean unchanged, and with none it adopts the
event's matches flag. -/
theorem system_theme_listener_spec :
    (∀ ls : List MediaQueryListener,
      MediaQueryListener.systemThemeChange ∈ mountSystemThemeListener ls) ∧
    unmountSystemThemeListener (mountSystemThemeListener []) = [] ∧
    (∀ saved : Option String, ∀ ev dark0 : Bool, jsFalsyStr saved = false →
      handleSystemThemeChange (Except.ok saved) ev dark0 = dark0) ∧
    (∀ ev dark0 : Bool, handleSystemThemeChange (Except.ok none) ev dark0 = ev) := by
  refine ⟨?_, by decide, ?_, ?_⟩
  · intro ls
    simp [mountSystemThemeListener]
  · intro saved ev dark0 h
    simp [handleSystemThemeChange, h]
  · intro ev dark0
    simp [handleSystemThemeChange, jsFalsyStr]

/-- C5. Storage failures in the theme controller are non-fatal: a throwing
read during initialization, a throwing last-visit write during
initialization, and a throwing theme write in the apply effect each yield a
recorded error string instead of a crash, with initialization falling back
to the platform color-scheme preference and always clearing the loading
flag. -/
theorem theme_storage_failures_nonfatal :
    (∀ setRes : Except Unit Unit, ∀ pd d0 : Bool,
      initThemeEffect (Except.error ()) setRes pd d0 =
        { isDarkMode := pd, themeError := some "Failed to load theme preferences"
        , isThemeLoading := false }) ∧
    (∀ saved : Option String, ∀ pd d0 : Bool,
      initThemeEffect (Except.ok saved) (Except.error ()) pd d0 =
        { isDarkMode := pd, themeError := some "Failed to load theme preferences"
        , isThemeLoading := false }) ∧
    (∀ dark : Bool, ∀ e0 : Option String,
      applyThemeEffect false dark (Except.error ()) e0 =
        (some "Failed to apply theme changes", none)) := by
  refine ⟨?_, ?_, ?_⟩
  · intro setRes pd d0
    rfl
  · intro saved pd d0
    rfl
  · intro dark e0
    rfl

/-- C7 counterexample. After a mount with an empty storage slot and a light
platform preference, with no user toggle and no system preference-change
event having occurred, the persisted theme slot has nevertheless been
written: the theme-apply effect records the resolved theme at mount. -/
theorem theme_slot_written_at_mount_cex :
    ((themeAppMount none false).storedTheme == (none : Option String)) = false ∧
    (themeAppMount none false).storedTheme = some "light" := by
  refine ⟨by decide, by decide⟩

/-- C7 amended. The persisted theme slot is written by the theme-apply
effect: at mount it records the resolved initial theme, a user toggle
records the flipped theme, a system preference-change event with a stored
value present changes nothing at all, and one with no stored value records
the event's preference when it differs from the current theme. -/
theorem theme_slot_writers_amended :
    (∀ st0 : Option String, ∀ pd : Bool,
      (themeAppMount st0 pd).storedTheme =
        some (if (themeAppMount st0 pd).isDarkMode then "dark" else "light")) ∧
    (∀ s : ThemeAppState, s.isThemeLoading = false →
      (themeAppToggle s).storedTheme = some (if s.isDarkMode then "light" else "dark")) ∧
    (∀ s : ThemeAppState, ∀ ev : Bool, jsFalsyStr s.storedTheme = false →
      themeAppSystemChange s ev = s) ∧
    (∀ s : ThemeAppState, ∀ ev : Bool, jsFalsyStr s.storedTheme = true →
      s.isThemeLoading = false → ev ≠ s.isDarkMode →
      (themeAppSystemChange s ev).storedTheme = some (if ev then "dark" else "light") ∧
      (themeAppSystemChange s ev).isDarkMode = ev) := by
  refine ⟨?_, ?_, ?_, ?_⟩
  · intro st0 pd
    simp [themeAppMount, applyThemeEffect, initThemeEffect]
  · intro s h
    cases hdm : s.isDarkMode <;>
      simp [themeAppToggle, applyThemeEffect, handleThemeToggle, h, hdm]
  · intro s ev h
    simp [themeAppSystemChange, handleSystemThemeChange, h]
  · intro s ev hf hl hne
    have hd : handleSystemThemeChange (Except.ok s.storedTheme) ev s.isDarkMode = ev := by
      simp [handleSystemThemeChange, hf]
    simp [themeAppSystemChange, hd, hne, applyThemeEffect, hl]

/-- C7 witness. The amended statement applied at a concrete state: with the
slot holding dark, a light-preference system event changes nothing; a toggle
from a mounted light state writes dark. -/
theorem theme_slot_writers_amended_witness :
    themeAppSystemChange
        { isDarkMode := true, isThemeLoading := false, themeError := none
        , storedTheme := some "dark" } false =
      { isDarkMode := true, isThemeLoading := false, themeError := none
      , storedTheme := some "dark" } ∧
    (themeAppToggle
        { isDarkMode := false, isThemeLoading := false, themeError := none
        , storedTheme := some "light" }).storedTheme = some "dark" :=
  ⟨theme_slot_writers_amended.2.2.1
      { isDarkMode := true, isThemeLoading := false, themeError := none
      , storedTheme := some "dark" } false (by decide),
   theme_slot_writers_amended.2.1
      { isDarkMode := false, isThemeLoading := false, themeError := none
      , storedTheme := some "light" } (by decide)⟩

/-- C6 counterexample. Leading and trailing whitespace IS stripped at
storage time: sanitizeInput trims first, so the value stored by
handleInputChange for a keystroke value with surrounding spaces differs from
the raw value. -/
theorem sanitize_trims_at_storage_cex :
    (sanitizeInput "  hello  " == "  hello  ") = false ∧
    (handleInputChange { value := "", error := "", touched := false } "  hello  ").value = "hello" := by
  refine ⟨by decide, by decide⟩

/-- C6 amended. The stored value is sanitizeInput of the raw keystroke
value, which strips leading/trailing whitespace first and then removes angle
brackets, javascript protocol strings and inline event-handler attribute
patterns; the two specification examples evaluate as stated. -/
theorem sanitize_storage_contract_amended :
    (∀ st : FieldState, ∀ v : String,
      handleInputChange st v = { value := sanitizeInput v, error := "", touched := true }) ∧
    sanitizeInput "<script>alert(1)</script>" = "scriptalert(1)/script" ∧
    sanitizeInput "javascript:doEvil()" = "doEvil()" ∧
    sanitizeInput "  hello  " = "hello" := by
  refine ⟨fun st v => rfl, by decide, by decide, by decide⟩

/-- C10 counterexample. sanitizeInput is not idempotent: deleting one
javascript protocol occurrence can splice the surrounding text into a new
occurrence, which only a second pass removes. -/
theorem sanitizeInput_not_idempotent_cex :
    (sanitizeInput (sanitizeInput "javajavascript:script:") == sanitizeInput "javajavascript:script:") = false ∧
    sanitizeInput "javajavascript:script:" = "javascript:" ∧
    sanitizeInput "javascript:" = "" := by
  refine ⟨by decide, by decide, by decide⟩

/-- C10 amended. A single sanitization pass does guarantee that the output
contains no angle brackets (the later passes only delete characters), but it
need not be a fixed point of sanitizeInput: a second pass can remove
javascript protocol or event-handler patterns created by deletion. -/
theorem sanitizeInput_output_no_angle_brackets :
    ∀ s : String, ((sanitizeInput s).data.all noAngle) = true := by
  intro s
  have h1 : (removeAngleBrackets (jsTrimList s.data)).all noAngle = true := by
    unfold removeAngleBrackets noAngle
    exact filter_all_self _ _
  have h2 : (removeJsProtocol (removeAngleBrackets (jsTrimList s.data))).all noAngle = true :=
    removeJsProtocolAux_all noAngle _ 0 h1
  exact removeOnHandlersAux_all noAngle _ 0 h2

/-- C8 counterexample. The validation that gates submission accepts a name
made of digits, which contains characters outside the
letters/spaces/hyphen/apostrophe class (as the repository's own isValidName
utility confirms by rejecting it). -/
theorem name_gate_ignores_charset_cex :
    validateField FieldName.name "1234" = "" ∧ isValidName "1234" = false := by
  refine ⟨by decide, by decide⟩

/-- C8 amended. The gating validateField accepts a name exactly when its
trimmed length is between 2 and 50, with no character-class restriction; the
character-class rule is implemented only by the separate isValidName
utility, which the submission gate does not invoke. -/
theorem name_gate_length_only :
    ∀ v : String,
      (validateField FieldName.name v == "") =
        (decide (2 ≤ (jsTrimList v.data).length) && decide ((jsTrimList v.data).length ≤ 50)) := by
  intro v
  rcases ht : jsTrimList v.data with _ | ⟨c, cs⟩
  · simp only [validateField, ht]
    decide
  · by_cases h2 : 2 ≤ (c :: cs).length
    · have e1 : validateFieldMinError (some 2) (c :: cs) = none := by
        simp only [validateFieldMinError]
        rw [if_neg (show ¬(0 < 2 ∧ (c :: cs).length < 2) by omega)]
      by_cases h50 : (c :: cs).length ≤ 50
      · have e2 : validateFieldMaxError (some 50) (c :: cs) = none := by
          simp only [validateFieldMaxError]
          rw [if_neg (show ¬(0 < 50 ∧ 50 < (c :: cs).length) by omega)]
        have r1 : 1 ≤ cs.length := by
          simp only [List.length_cons] at h2
          omega
        have r2 : cs.length ≤ 49 := by
          simp only [List.length_cons] at h50
          omega
        simp [validateField, ht, FORM_FIELDS, e1, e2, r1, r2]
      · have e2 : validateFieldMaxError (some 50) (c :: cs) =
            some ("Must be no more than " ++ toString 50 ++ " characters") := by
          simp only [validateFieldMaxError]
          rw [if_pos (show 0 < 50 ∧ 50 < (c :: cs).length by omega)]
        have m2 : (("Must be no more than " ++ toString 50 ++ " characters" : String) == "") = false := by
          decide
        have r2 : ¬cs.length ≤ 49 := by
          simp only [List.length_cons] at h50
          omega
        simp [validateField, ht, FORM_FIELDS, e1, e2, r2, m2]
    · have e1 : validateFieldMinError (some 2) (c :: cs) =
          some ("Must be at least " ++ toString 2 ++ " characters") := by
        simp only [validateFieldMinError]
        rw [if_pos (show 0 < 2 ∧ (c :: cs).length < 2 by omega)]
      have m1 : (("Must be at least " ++ toString 2 ++ " characters" : String) == "") = false := by
        decide
      have r1 : ¬1 ≤ cs.length := by
        simp only [List.length_cons] at h2
        omega
      simp [validateField, ht, FORM_FIELDS, e1, r1, m1]

/-- Helper: validateForm only rewrites a field's error and touched flags,
never its value. -/
theorem validateFormField_value (f : FieldName) (st : FieldState) :
    ((validateFormField f st).1).value = st.value := by
  unfold validateFormField
  by_cases h : validateField f st.value = ""
  · simp [h]
  · simp [h]

/-- C9. A submission from a state passing whole-form validation resets, when
the injected submission function resolves, every field to the empty
untouched state and records a success result whose auto-dismiss timer is
armed for 5000 milliseconds; when the submission function rejects, every
field's value is unchanged from its pre-submission value. -/
theorem submit_success_resets_failure_preserves (s : ContactComponentState)
    (h : (validateForm s.formState).1 = true) :
    ((handleSubmit s SubmitOutcome.resolves).formState = emptyFormState ∧
     (handleSubmit s SubmitOutcome.resolves).submitResult =
       some { success := true
            , message := "Thank you for your message! I will get back to you soon." } ∧
     (handleSubmit s SubmitOutcome.resolves).isSubmitted = true ∧
     successDismissTimer (handleSubmit s SubmitOutcome.resolves).submitResult = some 5000) ∧
    (∀ msg : Option String,
      (handleSubmit s (SubmitOutcome.rejects msg)).formState.name.value = s.formState.name.value ∧
      (handleSubmit s (SubmitOutcome.rejects msg)).formState.email.value = s.formState.email.value ∧
      (handleSubmit s (SubmitOutcome.rejects msg)).formState.subject.value = s.formState.subject.value ∧
      (handleSubmit s (SubmitOutcome.rejects msg)).formState.message.value = s.formState.message.value) := by
  constructor
  · simp [handleSubmit, h, successDismissTimer, SUCCESS_MESSAGE_DISMISS_MS]
  · intro msg
    have hrej : (handleSubmit s (SubmitOutcome.rejects msg)).formState = (validateForm s.formState).2 := by
      simp [handleSubmit, h]
    rw [hrej]
    simp [validateForm]
    exact ⟨validateFormField_value _ _, validateFormField_value _ _,
           validateFormField_value _ _, validateFormField_value _ _⟩

/-- C9 witness. The theorem applied at a concrete valid state: the resolved
submission resets the form and marks it submitted. -/
theorem submit_success_resets_witness :
    (handleSubmit c9WitnessState SubmitOutcome.resolves).formState = emptyFormState ∧
    (handleSubmit c9WitnessState SubmitOutcome.resolves).isSubmitted = true :=
  ⟨(submit_success_resets_failure_preserves c9WitnessState (by decide)).1.1,
   (submit_success_resets_failure_preserves c9WitnessState (by decide)).1.2.2.1⟩
